import Mathlib

/-!
Verification of the `TextToSpeech` synthesis façade of VocalizeAI
(`src/core/text_to_speech.py`), against its natural-language specification.

The embedding is shallow: each Python method becomes a total Lean function.
The external world (the ElevenLabs SDK client and the REST endpoint) is
modelled as an oracle record describing what each network interaction would
do during the call; the function then mirrors the Python control flow over
that oracle, and returns both the Python return value and the effect trace
(which network paths were attempted, which file was written).  Byte strings
are lists of naturals; Python text strings are lists of characters.
-/

namespace VocalizeAI

/-- Raw audio payloads: byte strings modelled as lists of byte values. -/
abbrev Bytes := List Nat

/-- Shape of the value `resp` returned by the SDK call
`client.text_to_speech.convert` (text_to_speech.py line 56): it may expose a
`.content` accessor, already be a `bytes`/`bytearray` buffer, be an iterable
of byte chunks, or be a value whose iteration (`b"".join(resp)`) raises. -/
inductive RespShape where
  | content (b : Bytes)
  | raw (b : Bytes)
  | chunks (cs : List Bytes)
  | iterRaises
deriving DecidableEq

/-- Outcome of invoking the SDK structured call: it either raises an
exception or returns a response value. -/
inductive ConvertOutcome where
  | raises
  | returns (r : RespShape)
deriving DecidableEq

/-- External-world oracle for one `synthesize` call: whether the SDK client
exposes `text_to_speech.convert` (the `hasattr` checks at line 52), what that
call would do, and what the REST endpoint would return.  `rest = some b`
means HTTP 200 with body `b`; `rest = none` means a non-200 status or a
network error — `_rest_generate_bytes` (lines 219-246) catches its own
exceptions and returns `None` in every failure case. -/
structure SynthEnv where
  hasConvert : Bool
  convert : ConvertOutcome
  rest : Option Bytes
deriving DecidableEq

/-- Observable outcome of a `synthesize` call: the Python return value
(`some path` or `None`), whether the structured SDK call was issued, whether
the REST request was issued, and the file written (path and bytes), if any. -/
structure SynthOutcome where
  result : Option String
  convertAttempted : Bool
  restAttempted : Bool
  fileWritten : Option (String × Bytes)
deriving DecidableEq

/-- Byte extraction from the structured response (lines 63-73): prefer the
`.content` accessor, then a raw byte buffer, then `b"".join(resp)` over an
iterable; if iteration raises, the inner handler sets `audio_bytes = None`. -/
def extractBytes : RespShape → Option Bytes
  | .content b => some b
  | .raw b => some b
  | .chunks cs => some cs.flatten
  | .iterRaises => none

/-- Default output path built at lines 86-89 when no `output_path` is given. -/
def defaultOutputPath (timestamp : String) : String :=
  "assets/outputs/output_" ++ timestamp ++ ".mp3"

/-- Shallow embedding of `TextToSpeech.synthesize` (lines 32-101).

Control flow mirrored from the source: if the client exposes
`text_to_speech.convert`, the structured call is issued; if it returns, bytes
are extracted with `extractBytes` and — notably — when extraction yields
`None` the code proceeds directly to the `audio_bytes is None` check at line
81 (the REST fallback at line 76 runs only when the structured call itself
raises); if the capability is absent, the REST path is used.  The text,
stability and similarity arguments do not influence the control flow; they
are forwarded to the network oracle.  The outer `try`/`except` (lines 46 and
99) converts any escaped exception into `None`, so the embedding is a total
function. -/
def synthesize (env : SynthEnv) (_text : List Char) (_stability _similarity : ℚ)
    (output_path : Option String) (timestamp : String) : SynthOutcome :=
  let attempt : Option Bytes × Bool × Bool :=
    if env.hasConvert then
      match env.convert with
      | .returns r => (extractBytes r, true, false)
      | .raises => (env.rest, true, true)
    else
      (env.rest, false, true)
  match attempt with
  | (none, conv, rst) => ⟨none, conv, rst, none⟩
  | (some b, conv, rst) =>
    let path := output_path.getD (defaultOutputPath timestamp)
    ⟨some path, conv, rst, some (path, b)⟩

/-- The bytes the structured SDK path alone would contribute: `none` when the
capability is absent, when the call raises, or when extraction fails. -/
def structuredYield (env : SynthEnv) : Option Bytes :=
  if env.hasConvert then
    match env.convert with
    | .returns r => extractBytes r
    | .raises => none
  else none

/-! ## Validation and estimation helpers -/

/-- Python `str.strip()`: remove leading and trailing whitespace. -/
def pyStrip (s : List Char) : List Char :=
  ((s.dropWhile Char.isWhitespace).reverse.dropWhile Char.isWhitespace).reverse

/-- The message built at line 312 for over-long text. -/
def tooLongMsg (n maxLength : Nat) : List Char :=
  "Text too long (".toList ++ (Nat.repr n).toList ++ " chars). Maximum: ".toList
    ++ (Nat.repr maxLength).toList

/-- Shallow embedding of `TextToSpeech.validate_text` (lines 297-317).
`not text or text.strip() == ""` is the first guard; `len(text) > max_length`
the second. -/
def validate_text (text : List Char) (max_length : Nat) : Bool × List Char :=
  if text = [] ∨ pyStrip text = [] then
    (false, "Text is empty".toList)
  else if max_length < text.length then
    (false, tooLongMsg text.length max_length)
  else
    (true, "Text valid".toList)

/-- Scanner loop modelling CPython `str.split()` with no separator: `acc`
holds the characters of the current word, most recent first. -/
def pySplitGo : List Char → List Char → List (List Char)
  | [], acc => if acc = [] then [] else [acc.reverse]
  | c :: cs, acc =>
    if c.isWhitespace then
      if acc = [] then pySplitGo cs [] else acc.reverse :: pySplitGo cs []
    else
      pySplitGo cs (c :: acc)

/-- Python `text.split()`: the list of whitespace-delimited words. -/
def pySplit (s : List Char) : List (List Char) := pySplitGo s []

/-- Dropping a prefix by a predicate never lengthens a list. -/
theorem dropWhile_length_le {α : Type} (p : α → Bool) (l : List α) :
    (l.dropWhile p).length ≤ l.length := by
  induction l with
  | nil => simp
  | cons a l ih =>
    by_cases h : p a
    · rw [List.dropWhile_cons_of_pos h]
      exact Nat.le_trans ih (Nat.le_succ _)
    · rw [List.dropWhile_cons_of_neg h]

/-- Specification-side word splitting: the maximal runs of non-whitespace
characters, in order.  Used to state that `pySplit` computes the
"whitespace-delimited token" decomposition. -/
def wordsSpec : List Char → List (List Char)
  | [] => []
  | c :: cs =>
    if c.isWhitespace then
      wordsSpec cs
    else
      (c :: cs.takeWhile (fun d => !d.isWhitespace)) ::
        wordsSpec (cs.dropWhile (fun d => !d.isWhitespace))
termination_by s => s.length
decreasing_by
  · simp only [List.length_cons]
    omega
  · simp only [List.length_cons]
    have := dropWhile_length_le (fun d => !d.isWhitespace) cs
    omega

/-- Shallow embedding of `TextToSpeech.estimate_audio_duration` (lines
319-334), over exact rationals: `len(text.split()) / words_per_minute * 60`. -/
def estimate_audio_duration (text : List Char) (words_per_minute : ℚ) : ℚ :=
  ((pySplit text).length : ℚ) / words_per_minute * 60

/-! ## Voice-settings presets -/

/-- A `{stability, similarity}` settings dictionary. -/
structure PresetSettings where
  stability : ℚ
  similarity : ℚ
deriving DecidableEq

/-- The `presets['balanced']` entry of the source table (line 348). -/
def balancedSettings : PresetSettings := ⟨0.50, 0.75⟩

/-- The fixed preset table of `get_voice_settings_preset` (lines 346-350). -/
def presets : List (String × PresetSettings) :=
  [("stable", ⟨0.75, 0.75⟩), ("balanced", balancedSettings), ("expressive", ⟨0.30, 0.80⟩)]

/-- Association-list lookup, modelling Python `dict` key lookup. -/
def lookupKey : List (String × PresetSettings) → String → Option PresetSettings
  | [], _ => none
  | (k, v) :: rest, p => if p = k then some v else lookupKey rest p

/-- Shallow embedding of `TextToSpeech.get_voice_settings_preset` (lines
336-352): `presets.get(preset, presets['balanced'])`. -/
def get_voice_settings_preset (preset : String) : PresetSettings :=
  (lookupKey presets preset).getD balancedSettings

/-- Shallow embedding of `TextToSpeech.synthesize_with_preset` (lines
354-373): resolve the preset, then call `synthesize` with no explicit
output path. -/
def synthesize_with_preset (env : SynthEnv) (text : List Char) (preset : String)
    (timestamp : String) : SynthOutcome :=
  let settings := get_voice_settings_preset preset
  synthesize env text settings.stability settings.similarity none timestamp

/-! ## Batch synthesis -/

/-- The output path `batch_{i+1}_{timestamp}.mp3` built at lines 266-268 for
the text at zero-based index `i`. -/
def batchPath (i : Nat) (timestamp : String) : String :=
  "assets/outputs/batch_" ++ Nat.repr (i + 1) ++ "_" ++ timestamp ++ ".mp3"

/-- Loop of `TextToSpeech.batch_synthesize` (lines 261-281) from index `i`
on: one `synthesize` call per text, in order; Python's `if result:` keeps a
returned path only when it is neither `None` nor the empty string. -/
def batchGo (env : Nat → SynthEnv) (stability similarity : ℚ) (timestamp : String) :
    Nat → List (List Char) → List String
  | _, [] => []
  | i, t :: ts =>
    match (synthesize (env i) t stability similarity
        (some (batchPath i timestamp)) timestamp).result with
    | some p =>
      if p = "" then batchGo env stability similarity timestamp (i + 1) ts
      else p :: batchGo env stability similarity timestamp (i + 1) ts
    | none => batchGo env stability similarity timestamp (i + 1) ts

/-- Shallow embedding of `TextToSpeech.batch_synthesize` (lines 248-281).
`env i` is the network oracle in effect for the `i`-th call. -/
def batch_synthesize (env : Nat → SynthEnv) (texts : List (List Char))
    (stability similarity : ℚ) (timestamp : String) : List String :=
  batchGo env stability similarity timestamp 0 texts

/-! ## Streaming synthesis -/

/-- Behaviour of the SDK streaming attempt (`client.text_to_speech.stream`
plus the yield loop, lines 121-131): either the iteration completes after
yielding `chunks`, or it raises after yielding `chunks` — `raisesAfter []`
is an error during setup, before any chunk was delivered. -/
inductive StreamOutcome where
  | ok (chunks : List Bytes)
  | raisesAfter (chunks : List Bytes)
deriving DecidableEq

/-- External-world oracle for one `synthesize_streaming` call: whether the
SDK exposes `text_to_speech.stream`, what the streaming attempt does, and
the REST endpoint's status code and transport-delivered chunk sequence
(`resp.iter_content(chunk_size=4096)`). -/
structure StreamEnv where
  hasStream : Bool
  stream : StreamOutcome
  httpStatus : Nat
  httpChunks : List Bytes
deriving DecidableEq

/-- Result of a `synthesize_streaming` call: the chunks yielded to the
consumer, in order, and whether the REST fallback signalled a non-200
failure (the out-of-band `❌` message at line 157). -/
structure StreamResult where
  yielded : List Bytes
  httpFailed : Bool
deriving DecidableEq

/-- The chunks the REST streaming fallback yields (lines 151-158): on HTTP
200 every non-empty transport chunk in order (the `if chunk:` filter at line
154); on any other status, nothing. -/
def httpYield (env : StreamEnv) : List Bytes :=
  if env.httpStatus = 200 then env.httpChunks.filter (fun c => !c.isEmpty) else []

/-- Shallow embedding of `TextToSpeech.synthesize_streaming` (lines
103-162).  The `try` at line 119 wraps the yield loop itself, so an error
raised by the SDK stream after some chunks were already delivered to the
consumer still falls through (line 133) to the REST fallback, whose chunks
then follow the already-yielded ones. -/
def synthesize_streaming (env : StreamEnv) : StreamResult :=
  if env.hasStream then
    match env.stream with
    | .ok cs => ⟨cs, false⟩
    | .raisesAfter cs => ⟨cs ++ httpYield env, env.httpStatus != 200⟩
  else
    ⟨httpYield env, env.httpStatus != 200⟩

/-! ## Helper lemmas -/

/-- Membership survives `dropWhile`. -/
theorem mem_of_mem_dropWhile {α : Type} (p : α → Bool) (l : List α) {x : α}
    (h : x ∈ l.dropWhile p) : x ∈ l := by
  induction l with
  | nil => simp at h
  | cons a l ih =>
    by_cases hp : p a
    · rw [List.dropWhile_cons_of_pos hp] at h
      exact List.mem_cons_of_mem a (ih h)
    · rwa [List.dropWhile_cons_of_neg hp] at h

/-- If everything left after `dropWhile p` satisfies `p`, the whole list does. -/
theorem all_of_dropWhile_all {α : Type} (p : α → Bool) (l : List α)
    (h : ∀ x ∈ l.dropWhile p, p x) : ∀ x ∈ l, p x := by
  intro x hx
  rw [← List.takeWhile_append_dropWhile p l] at hx
  rcases List.mem_append.1 hx with h1 | h2
  · exact List.mem_takeWhile_imp h1
  · exact h x h2

/-- `pyStrip` erases the whole string exactly when every character is
whitespace (so Python's `text.strip() == ""` detects blank text). -/
theorem pyStrip_eq_nil_iff (s : List Char) :
    pyStrip s = [] ↔ ∀ c ∈ s, c.isWhitespace := by
  unfold pyStrip
  rw [List.reverse_eq_nil_iff, List.dropWhile_eq_nil_iff]
  constructor
  · intro h c hc
    refine all_of_dropWhile_all _ s (fun x hx => ?_) c hc
    exact h x (List.mem_reverse.2 hx)
  · intro h c hc
    exact h c (mem_of_mem_dropWhile _ _ (List.mem_reverse.1 hc))

/-- The scanner `pySplitGo` agrees with the declarative word decomposition,
for any partially accumulated word. -/
theorem pySplitGo_eq (s : List Char) : ∀ acc : List Char,
    pySplitGo s acc =
      if acc = [] then wordsSpec s
      else (acc.reverse ++ s.takeWhile (fun d => !d.isWhitespace)) ::
        wordsSpec (s.dropWhile (fun d => !d.isWhitespace)) := by
  induction s with
  | nil =>
    intro acc
    by_cases h : acc = [] <;> simp [pySplitGo, wordsSpec, h]
  | cons c cs ih =>
    intro acc
    by_cases hws : c.isWhitespace
    · by_cases h : acc = []
      · subst h
        simp [pySplitGo, hws, wordsSpec, ih []]
      · simp [pySplitGo, hws, h, wordsSpec, ih [], List.takeWhile_cons,
          List.dropWhile_cons]
    · by_cases h : acc = []
      · subst h
        simp [pySplitGo, hws, wordsSpec, ih [c], List.takeWhile_cons,
          List.dropWhile_cons]
      · simp [pySplitGo, hws, h, wordsSpec, ih (c :: acc), List.takeWhile_cons,
          List.dropWhile_cons]

/-- Python `text.split()` computes exactly the maximal non-whitespace runs. -/
theorem pySplit_eq_wordsSpec (s : List Char) : pySplit s = wordsSpec s := by
  simp [pySplit, pySplitGo_eq s []]

/-- Dropping empty chunks does not change the concatenated byte content. -/
theorem flatten_filter_nonempty (l : List Bytes) :
    (l.filter (fun c => !c.isEmpty)).flatten = l.flatten := by
  induction l with
  | nil => rfl
  | cons c cs ih =>
    cases c with
    | nil => simpa [List.filter_cons] using ih
    | cons b bs => simp [List.filter_cons, ih]

/-! ## Claim theorems: validation and estimation -/

/-- C8: `validate_text` rejects empty or whitespace-only text with a reason
containing "empty"; rejects text longer than `maxLength` with a reason
containing the decimal renderings of both the actual length and the bound;
and accepts everything else. -/
theorem validate_text_spec (text : List Char) (maxLength : Nat) :
    ((∀ c ∈ text, c.isWhitespace) →
      validate_text text maxLength = (false, "Text is empty".toList) ∧
        "empty".toList <:+: (validate_text text maxLength).2) ∧
    ((¬ ∀ c ∈ text, c.isWhitespace) → maxLength < text.length →
      (validate_text text maxLength).1 = false ∧
        (Nat.repr text.length).toList <:+: (validate_text text maxLength).2 ∧
        (Nat.repr maxLength).toList <:+: (validate_text text maxLength).2) ∧
    ((¬ ∀ c ∈ text, c.isWhitespace) → text.length ≤ maxLength →
      (validate_text text maxLength).1 = true) := by
  refine ⟨?_, ?_, ?_⟩
  · intro h
    have hv : validate_text text maxLength = (false, "Text is empty".toList) := by
      unfold validate_text
      rw [if_pos (Or.inr ((pyStrip_eq_nil_iff text).2 h))]
    rw [hv]
    exact ⟨rfl, by decide⟩
  · intro h hlen
    have hcond : ¬ (text = [] ∨ pyStrip text = []) := by
      rintro (rfl | hs)
      · exact h (by simp)
      · exact h ((pyStrip_eq_nil_iff text).1 hs)
    have hv : validate_text text maxLength = (false, tooLongMsg text.length maxLength) := by
      unfold validate_text
      rw [if_neg hcond, if_pos hlen]
    rw [hv]
    refine ⟨rfl, ?_, ?_⟩
    · exact ⟨"Text too long (".toList,
        " chars). Maximum: ".toList ++ (Nat.repr maxLength).toList,
        by simp [tooLongMsg]⟩
    · exact ⟨"Text too long (".toList ++ (Nat.repr text.length).toList
        ++ " chars). Maximum: ".toList, [], by simp [tooLongMsg]⟩
  · intro h hlen
    have hcond : ¬ (text = [] ∨ pyStrip text = []) := by
      rintro (rfl | hs)
      · exact h (by simp)
      · exact h ((pyStrip_eq_nil_iff text).1 hs)
    unfold validate_text
    rw [if_neg hcond, if_neg (by omega)]

/-- C8 witness: concrete instances — empty text rejected as "empty",
`"abc"` with bound 2 rejected with both numbers in the reason, `"hello"`
accepted with the default bound. -/
theorem validate_text_spec_witness :
    (validate_text [] 5000 = (false, "Text is empty".toList) ∧
      "empty".toList <:+: (validate_text [] 5000).2) ∧
    ((validate_text "abc".toList 2).1 = false ∧
      (Nat.repr ("abc".toList).length).toList <:+: (validate_text "abc".toList 2).2 ∧
      (Nat.repr 2).toList <:+: (validate_text "abc".toList 2).2) ∧
    (validate_text "hello".toList 5000).1 = true :=
  ⟨(validate_text_spec [] 5000).1 (by decide),
   (validate_text_spec "abc".toList 2).2.1 (by decide) (by decide),
   (validate_text_spec "hello".toList 5000).2.2 (by decide) (by decide)⟩

/-- C9: `estimate_audio_duration` equals the whitespace-delimited word count
divided by the speaking rate and converted to seconds (exact rational
arithmetic); in particular three words at 150 words per minute estimate to
1.2 seconds.  The embedding is a pure function, matching "no side effects". -/
theorem estimate_audio_duration_spec :
    (∀ (text : List Char) (wpm : ℚ),
      estimate_audio_duration text wpm = ((wordsSpec text).length : ℚ) / wpm * 60) ∧
    estimate_audio_duration "one two three".toList 150 = 1.2 := by
  constructor
  · intro text wpm
    rw [estimate_audio_duration, pySplit_eq_wordsSpec]
  · have h3 : (pySplit "one two three".toList).length = 3 := by decide
    rw [estimate_audio_duration, h3]
    norm_num

/-! ## Claim theorems: the synthesis façade -/

/-- C1 counterexample: empty text is invalid according to `validate_text`,
yet `synthesize` still issues a network request — here the SDK capability is
absent, so the REST request is attempted (and even succeeds).  The source
contains no validation step before the network attempt. -/
theorem synthesize_empty_text_attempts_network :
    (validate_text [] 5000).1 = false ∧
    (synthesize (⟨false, .raises, some [7]⟩ : SynthEnv) [] 0 0 none
      "20240101_000000").restAttempted = true := by
  decide

/-- C1 amended: `synthesize` performs no input validation — for invalid
(empty, whitespace-only, or over-long) text the control flow is unchanged,
and a network attempt is always issued: the structured call exactly when the
capability is present, otherwise the REST request. -/
theorem synthesize_invalid_text_still_attempts_network (env : SynthEnv)
    (text : List Char) (st sim : ℚ) (out : Option String) (ts : String)
    (_hinvalid : (validate_text text 5000).1 = false) :
    (synthesize env text st sim out ts).convertAttempted = env.hasConvert ∧
    ((synthesize env text st sim out ts).convertAttempted = true ∨
      (synthesize env text st sim out ts).restAttempted = true) := by
  rcases env with ⟨hc, cv, rst⟩
  cases hc
  · cases rst <;> simp [synthesize]
  · cases cv with
    | raises => cases rst <;> simp [synthesize]
    | returns r => cases h : extractBytes r <;> simp [synthesize, h]

/-- C1 amended, witness: with the capability present and empty (invalid)
text, the structured call is still attempted. -/
theorem synthesize_invalid_text_still_attempts_network_witness :
    (validate_text [] 5000).1 = false ∧
    ((synthesize (⟨true, .raises, none⟩ : SynthEnv) [] 0 0 none "t").convertAttempted = true ∨
      (synthesize (⟨true, .raises, none⟩ : SynthEnv) [] 0 0 none "t").restAttempted = true) :=
  ⟨by decide,
    (synthesize_invalid_text_still_attempts_network ⟨true, .raises, none⟩ [] 0 0 none "t"
      (by decide)).2⟩

/-- C2 counterexample: with the convert capability present, a structured
response with no content accessor, not a byte buffer, and whose iteration
raises (`RespShape.iterRaises`) makes `synthesize` return the failure
directly — the REST request, which here would have succeeded with body
`[7]`, is never attempted. -/
theorem synthesize_extraction_failure_skips_rest :
    extractBytes .iterRaises = none ∧
    (synthesize (⟨true, .returns .iterRaises, some [7]⟩ : SynthEnv) [] 0 0 none
      "t").restAttempted = false ∧
    (synthesize (⟨true, .returns .iterRaises, some [7]⟩ : SynthEnv) [] 0 0 none
      "t").result = none := by
  decide

/-- C2 amended: when the structured call raises, the façade swallows the
error and falls through to the REST request, never propagating the raw
error; but when the structured call returns and byte extraction yields no
bytes, `synthesize` reports the failure directly and the REST fallback is
not attempted. -/
theorem synthesize_structured_failure_behaviour (env : SynthEnv)
    (text : List Char) (st sim : ℚ) (out : Option String) (ts : String)
    (hcap : env.hasConvert = true) :
    (env.convert = .raises →
      (synthesize env text st sim out ts).restAttempted = true) ∧
    (∀ r, env.convert = .returns r → extractBytes r = none →
      (synthesize env text st sim out ts).restAttempted = false ∧
      (synthesize env text st sim out ts).result = none ∧
      (synthesize env text st sim out ts).fileWritten = none) := by
  rcases env with ⟨hc, cv, rst⟩
  obtain rfl : hc = true := hcap
  constructor
  · rintro rfl
    cases rst <;> simp [synthesize]
  · rintro r rfl hr
    simp [synthesize, hr]

/-- C2 amended, witness: at the concrete environment of the counterexample,
the theorem instantiates to: no REST attempt, `None` returned, no file. -/
theorem synthesize_structured_failure_behaviour_witness :
    (synthesize (⟨true, .returns .iterRaises, some [7]⟩ : SynthEnv) [] 0 0 none
      "t").restAttempted = false ∧
    (synthesize (⟨true, .returns .iterRaises, some [7]⟩ : SynthEnv) [] 0 0 none
      "t").result = none ∧
    (synthesize (⟨true, .returns .iterRaises, some [7]⟩ : SynthEnv) [] 0 0 none
      "t").fileWritten = none :=
  (synthesize_structured_failure_behaviour ⟨true, .returns .iterRaises, some [7]⟩
    [] 0 0 none "t" rfl).2 .iterRaises rfl rfl

/-- C4: whenever the structured path contributes no bytes and the REST
endpoint would return nothing, `synthesize` returns the failure marker
(`None`) and writes no file.  The embedding is a total function — the outer
`try`/`except` of the source converts any escaped exception into `None`, so
no unhandled exception reaches the caller in any outcome. -/
theorem synthesize_both_paths_fail_no_artifact (env : SynthEnv)
    (text : List Char) (st sim : ℚ) (out : Option String) (ts : String)
    (hstruct : structuredYield env = none) (hrest : env.rest = none) :
    (synthesize env text st sim out ts).result = none ∧
    (synthesize env text st sim out ts).fileWritten = none := by
  rcases env with ⟨hc, cv, rst⟩
  obtain rfl : rst = none := hrest
  cases hc
  · simp [synthesize]
  · cases cv with
    | raises => simp [synthesize]
    | returns r =>
      simp only [structuredYield, if_pos] at hstruct
      simp [synthesize, hstruct]

/-- C4 witness: with a structured response whose iteration raises and a
failing REST endpoint, the call returns `None` and writes nothing. -/
theorem synthesize_both_paths_fail_no_artifact_witness :
    (synthesize (⟨true, .returns .iterRaises, none⟩ : SynthEnv) [] 0 0 none
      "t").result = none ∧
    (synthesize (⟨true, .returns .iterRaises, none⟩ : SynthEnv) [] 0 0 none
      "t").fileWritten = none :=
  synthesize_both_paths_fail_no_artifact ⟨true, .returns .iterRaises, none⟩
    [] 0 0 none "t" rfl rfl

/-- C7: the preset table has exactly the keys "stable", "balanced" and
"expressive"; looking up any name outside the table yields the balanced
settings; and `synthesize_with_preset` equals `synthesize` called with the
stability and similarity resolved from the table (and no explicit output
path). -/
theorem preset_spec :
    presets.map Prod.fst = ["stable", "balanced", "expressive"] ∧
    (∀ p : String, p ∉ presets.map Prod.fst →
      get_voice_settings_preset p = balancedSettings) ∧
    (∀ (env : SynthEnv) (text : List Char) (p ts : String),
      synthesize_with_preset env text p ts =
        synthesize env text (get_voice_settings_preset p).stability
          (get_voice_settings_preset p).similarity none ts) := by
  refine ⟨rfl, ?_, fun env text p ts => rfl⟩
  intro p hp
  simp [presets] at hp
  obtain ⟨h1, h2, h3⟩ := hp
  simp [get_voice_settings_preset, lookupKey, presets, h1, h2, h3]

/-- C7 witness: the unknown preset name "unknown" resolves to the balanced
settings, and `synthesize_with_preset` with it equals the corresponding
`synthesize` call. -/
theorem preset_spec_witness :
    get_voice_settings_preset "unknown" = balancedSettings ∧
    synthesize_with_preset (⟨false, .raises, none⟩ : SynthEnv) [] "unknown" "t" =
      synthesize (⟨false, .raises, none⟩ : SynthEnv) []
        (get_voice_settings_preset "unknown").stability
        (get_voice_settings_preset "unknown").similarity none "t" :=
  ⟨preset_spec.2.1 "unknown" (by decide),
   preset_spec.2.2 ⟨false, .raises, none⟩ [] "unknown" "t"⟩

/-! ## Claim theorems: streaming -/

/-- C3 counterexample: an SDK stream that raises after yielding chunk `[1]`,
with the REST endpoint serving chunk `[2]`, makes `synthesize_streaming`
yield `[1]` and then `[2]`: the switch to HTTP happened after a chunk had
already been yielded, and the yielded sequence concatenates chunks of the
structured attempt with chunks of the HTTP attempt. -/
theorem streaming_concatenates_both_attempts :
    (synthesize_streaming (⟨true, .raisesAfter [[1]], 200, [[2]]⟩ : StreamEnv)).yielded
      = [[1], [2]] ∧
    httpYield (⟨true, .raisesAfter [[1]], 200, [[2]]⟩ : StreamEnv) = [[2]] := by
  decide

/-- C3 amended: the switch to the direct HTTP streaming path happens on any
error during the structured attempt — setup or mid-iteration — and the HTTP
attempt restarts from the beginning.  When the structured attempt completes
without error its chunks are yielded alone; when it fails after yielding
some chunks, those chunks are followed by the HTTP attempt's chunks, so the
two attempts are mutually exclusive only if the error strikes before the
first chunk. -/
theorem streaming_fallback_characterization (env : StreamEnv) (cs : List Bytes) :
    (env.hasStream = true → env.stream = .ok cs →
      (synthesize_streaming env).yielded = cs ∧
      (synthesize_streaming env).httpFailed = false) ∧
    (env.hasStream = true → env.stream = .raisesAfter cs →
      (synthesize_streaming env).yielded = cs ++ httpYield env ∧
      (cs = [] → (synthesize_streaming env).yielded = httpYield env)) ∧
    (env.hasStream = false → (synthesize_streaming env).yielded = httpYield env) := by
  rcases env with ⟨hs, so, st, ch⟩
  refine ⟨?_, ?_, ?_⟩
  · rintro rfl rfl
    simp [synthesize_streaming]
  · rintro rfl rfl
    refine ⟨by simp [synthesize_streaming], ?_⟩
    rintro rfl
    simp [synthesize_streaming]
  · rintro rfl
    simp [synthesize_streaming]

/-- C3 amended, witness: a structured stream that completes with one chunk
yields exactly that chunk and signals no HTTP failure. -/
theorem streaming_fallback_characterization_witness :
    (synthesize_streaming (⟨true, .ok [[5]], 500, []⟩ : StreamEnv)).yielded = [[5]] ∧
    (synthesize_streaming (⟨true, .ok [[5]], 500, []⟩ : StreamEnv)).httpFailed = false :=
  (streaming_fallback_characterization ⟨true, .ok [[5]], 500, []⟩ [[5]]).1 rfl rfl

/-- C5: whenever `synthesize_streaming` takes the HTTP fallback path (the
SDK streaming capability is absent, or the structured attempt failed during
setup before yielding anything) and the endpoint answers HTTP 200 with a
body the transport splits into chunks concatenating to `body`, the in-order
concatenation of all yielded chunks equals exactly `body`, regardless of the
chunk boundaries. -/
theorem streaming_http_concat_eq_body (env : StreamEnv) (body : Bytes)
    (hpath : env.hasStream = false ∨ env.stream = .raisesAfter [])
    (hstatus : env.httpStatus = 200)
    (hbody : env.httpChunks.flatten = body) :
    (synthesize_streaming env).yielded.flatten = body := by
  rcases env with ⟨hs, so, st, ch⟩
  obtain rfl : st = 200 := hstatus
  have hyield : (httpYield ⟨hs, so, 200, ch⟩).flatten = body := by
    simp [httpYield, flatten_filter_nonempty, hbody]
  rcases hpath with h | h
  · obtain rfl : hs = false := h
    simpa [synthesize_streaming] using hyield
  · obtain rfl : so = .raisesAfter [] := h
    cases hs <;> simpa [synthesize_streaming] using hyield

/-- C5 witness: with no SDK streaming capability, status 200 and transport
chunks `[1,2]`, `[]`, `[3]`, the yielded chunks concatenate to `[1,2,3]`. -/
theorem streaming_http_concat_eq_body_witness :
    (synthesize_streaming (⟨false, .ok [], 200, [[1, 2], [], [3]]⟩ : StreamEnv)).yielded.flatten
      = [1, 2, 3] :=
  streaming_http_concat_eq_body ⟨false, .ok [], 200, [[1, 2], [], [3]]⟩ [1, 2, 3]
    (Or.inl rfl) rfl (by decide)

/-- C10: on the HTTP fallback path every chunk yielded to the consumer is
non-empty (empty transport chunks are filtered out by the `if chunk:` test),
and the filtering leaves the concatenated byte content of the yielded
sequence equal to what the transport delivered. -/
theorem streaming_http_yields_nonempty_chunks (env : StreamEnv)
    (hpath : env.hasStream = false) :
    (∀ c ∈ (synthesize_streaming env).yielded, c ≠ []) ∧
    (env.httpStatus = 200 →
      (synthesize_streaming env).yielded.flatten = env.httpChunks.flatten) := by
  rcases env with ⟨hs, so, st, ch⟩
  obtain rfl : hs = false := hpath
  have hy : (synthesize_streaming ⟨false, so, st, ch⟩).yielded
      = if st = 200 then ch.filter (fun c => !c.isEmpty) else [] := by
    simp [synthesize_streaming, httpYield]
  constructor
  · intro c hc
    rw [hy] at hc
    by_cases hst : st = 200
    · rw [if_pos hst] at hc
      have hne := (List.mem_filter.1 hc).2
      intro hnil
      subst hnil
      simp at hne
    · rw [if_neg hst] at hc
      simp at hc
  · intro h200
    rw [hy, if_pos h200, flatten_filter_nonempty]

/-- C10 witness: with transport chunks `[1]`, `[]`, `[2]`, the chunk `[1]`
that is actually yielded is non-empty and the concatenated content is
unchanged by the filtering. -/
theorem streaming_http_yields_nonempty_chunks_witness :
    ([1] ≠ ([] : Bytes)) ∧
    (synthesize_streaming (⟨false, .ok [], 200, [[1], [], [2]]⟩ : StreamEnv)).yielded.flatten
      = ([[1], [], [2]] : List Bytes).flatten :=
  ⟨(streaming_http_yields_nonempty_chunks ⟨false, .ok [], 200, [[1], [], [2]]⟩ rfl).1
      [1] (by decide),
   (streaming_http_yields_nonempty_chunks ⟨false, .ok [], 200, [[1], [], [2]]⟩ rfl).2 rfl⟩

/-! ## Claim theorems: batch synthesis -/

/-- On an explicit output path, a `synthesize` call either fails or returns
exactly that path. -/
theorem synthesize_result_with_path (env : SynthEnv) (t : List Char)
    (st sim : ℚ) (pa ts : String) :
    (synthesize env t st sim (some pa) ts).result = none ∨
    (synthesize env t st sim (some pa) ts).result = some pa := by
  rcases env with ⟨hc, cv, rst⟩
  cases hc
  · cases rst <;> simp [synthesize]
  · cases cv with
    | raises => cases rst <;> simp [synthesize]
    | returns r => cases h : extractBytes r <;> simp [synthesize, h]

/-- Batch output paths are never the empty string, so Python's `if result:`
truthiness test coincides with the `is not None` test for them. -/
theorem batchPath_ne_empty (i : Nat) (ts : String) : batchPath i ts ≠ "" := by
  intro h
  unfold batchPath at h
  have hl := congrArg String.length h
  simp only [String.length_append] at hl
  have h21 : ("assets/outputs/batch_" : String).length = 21 := rfl
  have h0 : ("" : String).length = 0 := rfl
  omega

/-- The length of a `filterMap` is the count of inputs it keeps. -/
theorem length_filterMap_eq_countP {α β : Type} (f : α → Option β) (l : List α) :
    (l.filterMap f).length = l.countP (fun a => (f a).isSome) := by
  induction l with
  | nil => rfl
  | cons a l ih =>
    cases h : f a <;> simp [List.filterMap_cons, h, List.countP_cons, ih]

/-- The batch loop from index `i` is the `filterMap` of the per-index
`synthesize` results over the index-annotated remaining texts. -/
theorem batchGo_eq (env : Nat → SynthEnv) (st sim : ℚ) (ts : String) :
    ∀ (texts : List (List Char)) (i : Nat),
      batchGo env st sim ts i texts =
        (texts.enumFrom i).filterMap
          (fun p => (synthesize (env p.1) p.2 st sim (some (batchPath p.1 ts)) ts).result) := by
  intro texts
  induction texts with
  | nil => intro i; rfl
  | cons t rest ih =>
    intro i
    rcases hres : (synthesize (env i) t st sim (some (batchPath i ts)) ts).result with _ | p
    · simp [batchGo, hres, List.enumFrom, List.filterMap_cons, ih (i + 1)]
    · have hp : p = batchPath i ts := by
        rcases synthesize_result_with_path (env i) t st sim (batchPath i ts) ts with h | h
        · rw [h] at hres; cases hres
        · rw [h] at hres; exact (Option.some.inj hres).symm
      have hne : ¬ p = "" := by
        rw [hp]; exact batchPath_ne_empty i ts
      simp [batchGo, hres, hne, List.enumFrom, List.filterMap_cons, ih (i + 1)]

/-- C6: `batch_synthesize` performs one `synthesize` call per text,
sequentially in list order (the `i`-th call using the `i`-th network oracle
and the `batch_{i+1}` output path), and returns exactly the result paths of
the successful calls in input order — failed texts are omitted, and the
returned list's length is the number of successful calls. -/
theorem batch_synthesize_spec (env : Nat → SynthEnv) (texts : List (List Char))
    (st sim : ℚ) (ts : String) :
    batch_synthesize env texts st sim ts =
      (texts.enumFrom 0).filterMap
        (fun p => (synthesize (env p.1) p.2 st sim (some (batchPath p.1 ts)) ts).result) ∧
    (batch_synthesize env texts st sim ts).length =
      (texts.enumFrom 0).countP
        (fun p => ((synthesize (env p.1) p.2 st sim (some (batchPath p.1 ts)) ts).result).isSome) := by
  unfold batch_synthesize
  have h := batchGo_eq env st sim ts texts 0
  exact ⟨h, by rw [h, length_filterMap_eq_countP]⟩

end VocalizeAI
